import Mathlib

/-!
Verification of the Providence session-recording agent (src/index.js).

The development shallowly embeds the agent's core as pure Lean functions:

* network record construction and the fetch wrapper (`interceptFetch`,
  `handleFetchRequest`, `handleFetchResponse`);
* the XHR `open` wrapper (`interceptXHR`), with the listener set and the
  attach/delegate order made explicit;
* the lifecycle state machine (`startRecord`, `stopRecord`,
  `handleVisibilityChange`, `handleInactivityTimeout`, timer callbacks),
  with timers, listener registration and the installed/restored status of
  the network primitives modelled as Boolean fields of an `AgentState`;
* the delivery pump (`sendBatch`), split into its synchronous drain phase
  and the asynchronous promise callbacks, over an explicit `Delivery`
  state carrying the in-flight payload.

Timestamps (`Date.now()`) are passed in as explicit `Nat` parameters; the
outcome of an awaited original call is passed in as an explicit oracle
value.  Session identifiers (`uuid()`) are modelled by a counter supply.
-/

namespace Providence

/-- The `data` object of a network record (type-50 event).  Fields that the
source only sets on some paths are `Option`s, `none` meaning the JS field
is absent. -/
structure NetData where
  url : String
  netType : String
  method : Option String := none
  requestMadeAt : Option Nat := none
  responseReceivedAt : Option Nat := none
  latency : Option Int := none
  status : Option Nat := none
  error : Option String := none
  deriving DecidableEq, Repr

/-- A captured event record: either an opaque rrweb UI/console event or a
network record.  The `timestamp` of a network record is `none` when the
source never assigns `networkEventObj.timestamp` (the XHR error/timeout
listeners). -/
inductive Event where
  | ui (payload : Nat)
  | net (timestamp : Option Nat) (data : NetData)
  deriving DecidableEq, Repr

/-- The first argument of `fetch`: either a plain string URL or a `Request`
object (which carries its own url and method). -/
inductive Resource where
  | str (s : String)
  | request (url : String) (method : String)
  deriving DecidableEq, Repr

/-- The second (init) argument of `fetch`. -/
structure FetchConfig where
  method : Option String := none
  deriving DecidableEq, Repr

/-- Oracle for the awaited original `fetch` call: it either resolves with a
status code or throws with an error message. -/
inductive FetchOutcome where
  | ok (status : Nat)
  | throws (msg : String)
  deriving DecidableEq, Repr

/-- What the wrapper returns to its caller: a normal response or a
re-thrown error. -/
inductive FetchResult where
  | ok (status : Nat)
  | threw (msg : String)
  deriving DecidableEq, Repr

/-- Delegating directly to the original call hands its outcome to the
caller unchanged. -/
def resultOfOutcome : FetchOutcome → FetchResult
  | .ok s => .ok s
  | .throws m => .threw m

/-- JS `x || dflt` on an optional string: `undefined`, `null` and the empty
string are falsy. -/
def jsOrStr (v : Option String) (dflt : String) : String :=
  match v with
  | some s => if s = "" then dflt else s
  | none => dflt

/-- JS `args[0]?.toString()`: a plain `Request` object stringifies to
`"[object Request]"`. -/
def Resource.toStr : Resource → String
  | .str s => s
  | .request _ _ => "[object Request]"

/-- `handleFetchRequest` (src/index.js:286): fills url, type, requestMadeAt
and method on the fresh network record. -/
def handleFetchRequest (resource : Resource) (config : Option FetchConfig)
    (t1 : Nat) : NetData :=
  match resource with
  | .request url m =>
      { url := url, netType := "FETCH", requestMadeAt := some t1, method := some m }
  | .str s =>
      { url := s, netType := "FETCH", requestMadeAt := some t1,
        method := some (jsOrStr (Option.bind config FetchConfig.method) "GET") }

/-- `handleFetchResponse` (src/index.js:305): fills responseReceivedAt,
latency and status, and an error descriptor when the status is not 2xx. -/
def handleFetchResponse (d : NetData) (status : Nat) (t2 : Nat) : NetData :=
  let base := { d with
    responseReceivedAt := some t2,
    latency := some ((t2 : Int) - ((d.requestMadeAt.getD 0 : Nat) : Int)),
    status := some status }
  if 200 ≤ status ∧ status < 300 then base
  else { base with error := some ("HTTP Error " ++ toString status) }

/-- The `data` of the best-effort record pushed by the wrapper's catch
block (src/index.js:272). -/
def fetchErrorData (resource : Resource) (msg : String) : NetData :=
  { url := jsOrStr (some resource.toStr) "unknown", netType := "FETCH",
    error := some msg }

/-- The error record pushed by the wrapper's catch block, timestamped at
catch time. -/
def fetchErrorRecord (resource : Resource) (msg : String) (now : Nat) : Event :=
  .net (some now) (fetchErrorData resource msg)

/-- The wrapper installed over `window.fetch` by `interceptFetch`
(src/index.js:240).  `t1` is `Date.now()` at request construction, `t2` at
completion (success or catch).  Self-traffic check is the source's strict
`resource === this.options.backendUrl`, which can only succeed for a
string argument. -/
def fetchWrapper (backendUrl : String) (resource : Resource)
    (config : Option FetchConfig) (outcome : FetchOutcome) (t1 t2 : Nat)
    (events : List Event) : List Event × FetchResult :=
  if resource = Resource.str backendUrl then
    (events, resultOfOutcome outcome)
  else
    let d := handleFetchRequest resource config t1
    match outcome with
    | .ok status =>
        (events ++ [Event.net (some t2) (handleFetchResponse d status t2)],
         FetchResult.ok status)
    | .throws msg =>
        (events ++ [fetchErrorRecord resource msg t2], FetchResult.threw msg)

/-- Claim C1 (as stated, refuted): the claim asserts that a fetch whose
target URL equals `backendUrl` never appends a Network Record "regardless
of how the target is supplied (string or request object)".  The source
compares with strict equality `resource === this.options.backendUrl`, so a
`Request` object whose url equals the backend URL fails the check and is
captured: here a backend-targeted Request yields an appended record. -/
theorem claim_c1_counterexample :
    (fetchWrapper "https://x/ingest" (Resource.request "https://x/ingest" "GET")
      none (FetchOutcome.ok 200) 0 120 []).1 ≠ [] := by
  decide

/-- Claim C1 (amended, proved): when the target is supplied as a string
equal to `backendUrl`, the wrapper delegates directly to the captured
original (its outcome is returned unchanged) and appends no record,
whatever the config, outcome, timing and prior buffer contents. -/
theorem claim_c1_amended (backendUrl : String) (config : Option FetchConfig)
    (outcome : FetchOutcome) (t1 t2 : Nat) (events : List Event) :
    fetchWrapper backendUrl (Resource.str backendUrl) config outcome t1 t2 events
      = (events, resultOfOutcome outcome) := by
  simp [fetchWrapper]

/-- Claim C6 (proved): for every observed call (one not bypassed by the
string self-traffic check) in which the original call throws, the wrapper
appends exactly one record carrying the error message and re-throws the
identical error; returning `FetchResult.threw msg` and nothing else shows
the wrapper neither swallows the error nor returns normally. -/
theorem claim_c6 (backendUrl : String) (resource : Resource)
    (config : Option FetchConfig) (msg : String) (t1 t2 : Nat)
    (events : List Event) (h : resource ≠ Resource.str backendUrl) :
    fetchWrapper backendUrl resource config (FetchOutcome.throws msg) t1 t2 events
      = (events ++ [fetchErrorRecord resource msg t2], FetchResult.threw msg)
    ∧ (fetchErrorData resource msg).error = some msg := by
  constructor
  · simp [fetchWrapper, h]
  · rfl

/-- Witness for C6 at a concrete third-party URL and error. -/
theorem claim_c6_witness :
    Resource.str "https://api.example.com/data" ≠ Resource.str "https://x/ingest"
    ∧ fetchWrapper "https://x/ingest" (Resource.str "https://api.example.com/data")
        none (FetchOutcome.throws "boom") 0 50 []
      = ([fetchErrorRecord (Resource.str "https://api.example.com/data") "boom" 50],
         FetchResult.threw "boom") := by
  refine ⟨by decide, ?_⟩
  have h := claim_c6 "https://x/ingest" (Resource.str "https://api.example.com/data")
    none "boom" 0 50 [] (by decide)
  simpa using h.1

/-- The three completion outcomes the XHR wrapper listens for
(src/index.js:335,351,360). -/
inductive XhrOutcome where
  | load
  | error
  | timeout
  deriving DecidableEq, Repr

/-- One step performed by the wrapped `XMLHttpRequest.prototype.open`
(src/index.js:322): attaching a completion listener, or delegating to the
captured original `open` with the given arguments. -/
inductive XhrAction where
  | attach (k : XhrOutcome)
  | delegateOpen (method : String) (url : String)
  deriving DecidableEq, Repr

/-- A completion listener attached by the wrapper.  Each listener closes
over the `networkEventObj` built at open time, here represented by the
request data captured then. -/
structure XhrListener where
  kind : XhrOutcome
  url : String
  method : String
  requestMadeAt : Nat
  deriving DecidableEq, Repr

/-- The observable state of one `XMLHttpRequest` object: the listeners
currently attached to it (never removed by the wrapper), and the trace of
wrapper actions in execution order. -/
structure Xhr where
  listeners : List XhrListener := []
  trace : List XhrAction := []
  deriving DecidableEq, Repr

/-- A fresh `XMLHttpRequest` object. -/
def emptyXhr : Xhr := {}

/-- The wrapped `open` (src/index.js:322): builds the network record data,
attaches the load, error and timeout listeners, then delegates to the
captured original `open` with the unmodified arguments.  `t` is
`Date.now()` at open time. -/
def xhrOpen (method url : String) (t : Nat) (x : Xhr) : Xhr :=
  { x with
    listeners := x.listeners ++
      [⟨.load, url, method, t⟩, ⟨.error, url, method, t⟩, ⟨.timeout, url, method, t⟩],
    trace := x.trace ++
      [.attach .load, .attach .error, .attach .timeout, .delegateOpen method url] }

/-- The record one listener pushes when its completion event fires: the load
listener fills timestamp, responseReceivedAt, latency and status; the error
and timeout listeners only set an error descriptor (the source never
assigns `timestamp` on those paths). -/
def xhrRecordFor (l : XhrListener) (k : XhrOutcome) (status t2 : Nat) : Event :=
  match k with
  | .load =>
      .net (some t2)
        { url := l.url, netType := "XHR", method := some l.method,
          requestMadeAt := some l.requestMadeAt, responseReceivedAt := some t2,
          latency := some ((t2 : Int) - (l.requestMadeAt : Int)),
          status := some status }
  | .error =>
      .net none
        { url := l.url, netType := "XHR", method := some l.method,
          requestMadeAt := some l.requestMadeAt, error := some "Network Error" }
  | .timeout =>
      .net none
        { url := l.url, netType := "XHR", method := some l.method,
          requestMadeAt := some l.requestMadeAt, error := some "Timeout" }

/-- A completion event of kind `k` firing on the object: every attached
listener of that kind runs (in attachment order) and pushes its record onto
the event buffer. -/
def fireXhr (k : XhrOutcome) (status t2 : Nat) (x : Xhr)
    (events : List Event) : List Event :=
  events ++ (x.listeners.filter (fun l => l.kind == k)).map
    (fun l => xhrRecordFor l k status t2)

/-- Claim C7 (as stated, refuted): the claim asserts exactly one record
appended per stateful request.  The wrapper attaches fresh listeners on
every `open` call and never removes them, so on an XHR object opened twice
a single load completion runs both accumulated load listeners and appends
two records. -/
theorem claim_c7_counterexample :
    (fireXhr XhrOutcome.load 200 10
      (xhrOpen "GET" "https://b.example/two" 5
        (xhrOpen "GET" "https://a.example/one" 0 emptyXhr)) []).length = 2 := by
  decide

/-- Claim C7 (amended, proved): on a fresh XHR object, the wrapped `open`
attaches the load, error and timeout listeners strictly before delegating
to the captured original `open` with unmodified arguments (the trace shows
the three attaches followed by the delegation), and a single completion of
any of the three mutually exclusive outcomes appends exactly one record;
exactly-one-record per request therefore holds for an object opened once,
but not across reuses of the same object. -/
theorem claim_c7_amended (method url : String) (t status t2 : Nat)
    (k : XhrOutcome) (events : List Event) :
    (xhrOpen method url t emptyXhr).trace
      = [XhrAction.attach XhrOutcome.load, XhrAction.attach XhrOutcome.error,
         XhrAction.attach XhrOutcome.timeout, XhrAction.delegateOpen method url]
    ∧ (fireXhr k status t2 (xhrOpen method url t emptyXhr) events).length
        = events.length + 1 := by
  refine ⟨rfl, ?_⟩
  cases k <;> simp [fireXhr, xhrOpen, emptyXhr]

/-- The payload `sendBatch` serializes synchronously before the transmitting
call suspends (src/index.js:576): project identifier, session identifier and
the drained events. -/
structure Payload where
  projectID : String
  sessionID : Nat
  events : List Event
  deriving DecidableEq, Repr

/-- The delivery-relevant state: the agent's identifiers, the event buffer
`this.events`, and the batch currently in flight (the `eventsToSend` capture
of an unresolved transmission), if any. -/
structure Delivery where
  projectID : String
  sessionID : Nat
  events : List Event
  inFlight : Option Payload
  deriving DecidableEq, Repr

/-- The synchronous phase of `sendBatch` (src/index.js:570-588): a no-op on
an empty buffer; otherwise it atomically copies the buffer into the batch,
empties the buffer, and serializes projectID, sessionID and the batch into
the request body before the transmission suspends. -/
def sendBatch (d : Delivery) : Delivery :=
  if d.events = [] then d
  else { d with events := [],
                inFlight := some ⟨d.projectID, d.sessionID, d.events⟩ }

/-- The `.then` callback on a successful 2xx response: the batch is
considered delivered and discarded. -/
def sendBatchThen (d : Delivery) : Delivery :=
  { d with inFlight := none }

/-- The `.catch` callback (src/index.js:595): on a network error or the
thrown non-2xx error, `this.events = [...eventsToSend, ...this.events]`
prepends the failed batch ahead of everything captured since the drain. -/
def sendBatchCatch (d : Delivery) : Delivery :=
  match d.inFlight with
  | some p => { d with events := p.events ++ d.events, inFlight := none }
  | none => d

/-- One `this.events.push(record)` capture. -/
def deliverAppend (d : Delivery) (e : Event) : Delivery :=
  { d with events := d.events ++ [e] }

/-- A sequence of captures, in capture order. -/
def appendMany (d : Delivery) (l : List Event) : Delivery :=
  l.foldl deliverAppend d

/-- A mutation that can interleave with an in-flight transmission: a capture
or a session-identifier change (`this.sessionID = uuid()`). -/
inductive FlightOp where
  | append (e : Event)
  | mint (sid : Nat)
  deriving DecidableEq, Repr

/-- Apply one interleaved mutation. -/
def applyFlightOp (d : Delivery) : FlightOp → Delivery
  | .append e => deliverAppend d e
  | .mint s => { d with sessionID := s }

/-- Apply a sequence of interleaved mutations. -/
def applyFlightOps (d : Delivery) (l : List FlightOp) : Delivery :=
  l.foldl applyFlightOp d

theorem appendMany_eq (d : Delivery) (l : List Event) :
    appendMany d l = { d with events := d.events ++ l } := by
  induction l generalizing d with
  | nil => simp [appendMany]
  | cons e l ih =>
      simp only [appendMany, List.foldl_cons] at *
      rw [ih]
      simp [deliverAppend]

theorem applyFlightOps_inFlight (d : Delivery) (l : List FlightOp) :
    (applyFlightOps d l).inFlight = d.inFlight := by
  induction l generalizing d with
  | nil => rfl
  | cons op l ih =>
      cases op <;> simp only [applyFlightOps, List.foldl_cons] at * <;>
        rw [ih] <;> rfl

/-- Claim C9 (proved): for any sequence of appends on an initially empty
buffer, the buffer holds exactly the appended records in capture order; the
drain phase of `sendBatch` then empties the buffer and fixes exactly that
sequence as the batch; and a drain on an empty buffer returns nothing and
changes nothing. -/
theorem claim_c9 (d : Delivery) (l : List Event) (h : d.events = []) :
    (appendMany d l).events = l
    ∧ (l ≠ [] →
        sendBatch (appendMany d l)
          = { d with events := [],
                     inFlight := some ⟨d.projectID, d.sessionID, l⟩ })
    ∧ (l = [] → sendBatch (appendMany d l) = d) := by
  refine ⟨?_, ?_, ?_⟩
  · rw [appendMany_eq]; simp [h]
  · intro hl
    rw [appendMany_eq]
    simp [sendBatch, h, hl]
  · intro hl
    subst hl
    cases d with
    | mk p s ev f =>
        simp only at h
        subst h
        rw [appendMany_eq]
        simp [sendBatch]

/-- Witness for C9: two concrete appends drain in order; zero appends drain
to nothing. -/
theorem claim_c9_witness :
    (appendMany ⟨"p1", 0, [], none⟩ [Event.ui 1, Event.ui 2]).events
        = [Event.ui 1, Event.ui 2]
    ∧ sendBatch (appendMany ⟨"p1", 0, [], none⟩ [Event.ui 1, Event.ui 2])
        = ⟨"p1", 0, [], some ⟨"p1", 0, [Event.ui 1, Event.ui 2]⟩⟩
    ∧ sendBatch (appendMany ⟨"p1", 0, [], none⟩ []) = ⟨"p1", 0, [], none⟩ := by
  have h := claim_c9 ⟨"p1", 0, [], none⟩ [Event.ui 1, Event.ui 2] rfl
  have h0 := claim_c9 ⟨"p1", 0, [], none⟩ [] rfl
  exact ⟨h.1, h.2.1 (by decide), h0.2.2 rfl⟩

/-- Claim C2 (proved): if a delivery attempt drains a non-empty buffer and
fails, with `m1` captured while it was in flight and `m2` captured between
the failure and the next tick, the failure callback prepends the drained
batch ahead of the later captures, and the next attempt's batch is exactly
the failed batch followed by the later captures in that relative order. -/
theorem claim_c2 (d : Delivery) (h : d.events ≠ []) (m1 m2 : List Event) :
    (sendBatchCatch (appendMany (sendBatch d) m1)).events = d.events ++ m1
    ∧ (sendBatch (appendMany (sendBatchCatch (appendMany (sendBatch d) m1)) m2)).inFlight
        = some ⟨d.projectID, d.sessionID, d.events ++ m1 ++ m2⟩ := by
  have hdrain : sendBatch d
      = { d with events := [],
                 inFlight := some ⟨d.projectID, d.sessionID, d.events⟩ } := by
    simp [sendBatch, h]
  have hfail : sendBatchCatch (appendMany (sendBatch d) m1)
      = { d with events := d.events ++ m1, inFlight := none } := by
    rw [hdrain, appendMany_eq]
    simp [sendBatchCatch]
  refine ⟨by rw [hfail], ?_⟩
  rw [hfail, appendMany_eq]
  simp [sendBatch, h, List.append_assoc]

/-- Witness for C2: a concrete failed batch of one record, one record
captured in flight and one after the failure; the retry batch is the three
in chronological order. -/
theorem claim_c2_witness :
    (⟨"p1", 7, [Event.ui 1], none⟩ : Delivery).events ≠ []
    ∧ (sendBatch (appendMany (sendBatchCatch
          (appendMany (sendBatch ⟨"p1", 7, [Event.ui 1], none⟩) [Event.ui 2]))
          [Event.ui 3])).inFlight
        = some ⟨"p1", 7, [Event.ui 1, Event.ui 2, Event.ui 3]⟩ := by
  refine ⟨by decide, ?_⟩
  have h := claim_c2 ⟨"p1", 7, [Event.ui 1], none⟩ (by decide)
    [Event.ui 2] [Event.ui 3]
  simpa using h.2

/-- Claim C10 (proved): a drain on a non-empty buffer fixes the payload's
projectID, sessionID and event list synchronously, and any interleaved
captures or session-identifier changes occurring while the transmission is
in flight leave the already-serialized batch untouched. -/
theorem claim_c10 (d : Delivery) (h : d.events ≠ []) (ops : List FlightOp) :
    (sendBatch d).inFlight = some ⟨d.projectID, d.sessionID, d.events⟩
    ∧ (applyFlightOps (sendBatch d) ops).inFlight
        = some ⟨d.projectID, d.sessionID, d.events⟩ := by
  have hdrain : (sendBatch d).inFlight
      = some ⟨d.projectID, d.sessionID, d.events⟩ := by
    simp [sendBatch, h]
  exact ⟨hdrain, by rw [applyFlightOps_inFlight, hdrain]⟩

/-- Witness for C10: a concrete in-flight batch survives a capture and a
session change unchanged. -/
theorem claim_c10_witness :
    (⟨"p1", 7, [Event.ui 1], none⟩ : Delivery).events ≠ []
    ∧ (applyFlightOps (sendBatch ⟨"p1", 7, [Event.ui 1], none⟩)
        [FlightOp.append (Event.ui 2), FlightOp.mint 99]).inFlight
        = some ⟨"p1", 7, [Event.ui 1]⟩ := by
  refine ⟨by decide, ?_⟩
  exact (claim_c10 ⟨"p1", 7, [Event.ui 1], none⟩ (by decide)
    [FlightOp.append (Event.ui 2), FlightOp.mint 99]).2

/-- The lifecycle-relevant state of a `ProvidenceAgent` instance, together
with the host environment it mutates.  Timers and listener registration are
modelled as flags: a `true` timer field means one instance of that timer is
outstanding (the source always clears any previous instance before
re-arming, so at most one exists).  `hooked` is the status of the three
window network primitives: `true` when the agent's wrappers are installed,
`false` when the captured originals are in place.  `events` is the agent's
buffer; `sendBatch`'s drain empties it (the asynchronous transmission is
modelled separately by `Delivery`).  `sessionID`/`uuidCtr` model the uuid
supply: every identifier already minted is below `uuidCtr`. -/
structure AgentState where
  stopFn : Bool
  events : List Event
  saveInterval : Bool
  sessionID : Nat
  uuidCtr : Nat
  handlerAttached : Bool
  interceptorsReset : Bool
  inactivityTimeout : Bool
  visibilityTimeout : Bool
  hooked : Bool
  oneShot : Bool
  activityListeners : Bool
  visible : Bool
  deriving DecidableEq, Repr

/-- The state right after the constructor (src/index.js:6): nothing hooked,
nothing running, one session identifier minted, page visible. -/
def initialAgent : AgentState :=
  { stopFn := false, events := [], saveInterval := false, sessionID := 0,
    uuidCtr := 1, handlerAttached := false, interceptorsReset := false,
    inactivityTimeout := false, visibilityTimeout := false, hooked := false,
    oneShot := false, activityListeners := false, visible := true }

/-- `this.sessionID = uuid()`: draw a fresh identifier from the supply. -/
def mintSession (a : AgentState) : AgentState :=
  { a with sessionID := a.uuidCtr, uuidCtr := a.uuidCtr + 1 }

/-- `startRecord` (src/index.js:76): a warning no-op while a recording is in
progress; otherwise installs the network interceptors, starts the rrweb
recorder, arms the 5-second delivery interval, initializes inactivity
detection (activity listeners plus the inactivity timer) and attaches the
visibility-change handler. -/
def startRecord (a : AgentState) : AgentState :=
  if a.stopFn then a
  else
    { a with hooked := true, stopFn := true, saveInterval := true,
             inactivityTimeout := true, activityListeners := true,
             handlerAttached := true }

/-- `startRecord` emits its warning exactly when a recording is already in
progress. -/
def startRecordWarns (a : AgentState) : Bool := a.stopFn

/-- `stopRecord` (src/index.js:114): clears the inactivity and teardown
timers, stops the recorder, clears the delivery interval, restores the
original network implementations, resets the `interceptorsReset` flag,
detaches the visibility handler and flushes the buffer with a final
`sendBatch`. -/
def stopRecord (a : AgentState) : AgentState :=
  { a with inactivityTimeout := false, visibilityTimeout := false,
           stopFn := false, saveInterval := false, hooked := false,
           interceptorsReset := false, handlerAttached := false,
           events := [] }

/-- The body of `handleVisibilityChange` (src/index.js:486), branching on
the current `document.visibilityState`.  Hidden: clear the inactivity
timer, stop the recorder and delivery interval, flush, and (unless the
interceptors were already torn down) arm the 15-second teardown timer.
Visible with the teardown timer still pending: cancel it, restart the
recorder, delivery interval and inactivity detection, leaving the session
identifier untouched.  Visible after the teardown timer has fired: mint a
fresh session identifier, clear the torn-down flag and perform a full
`startRecord`. -/
def handleVisibilityChange (a : AgentState) : AgentState :=
  if a.visible = false then
    let b := { a with inactivityTimeout := false, stopFn := false,
                      saveInterval := false, events := [] }
    if b.interceptorsReset = false then { b with visibilityTimeout := true }
    else b
  else
    if a.visibilityTimeout then
      { a with visibilityTimeout := false, stopFn := true, saveInterval := true,
               inactivityTimeout := true, activityListeners := true }
    else
      startRecord { (mintSession a) with interceptorsReset := false }

/-- The teardown timer callback (src/index.js:516): restore the original
network implementations and mark the interceptors as reset. -/
def visibilityTimeoutFire (a : AgentState) : AgentState :=
  { a with visibilityTimeout := false, hooked := false,
           interceptorsReset := true }

/-- `handleInactivityTimeout` (src/index.js:192): full stop, flush, fresh
session identifier, and arm the one-shot restart listeners. -/
def handleInactivityTimeout (a : AgentState) : AgentState :=
  { (mintSession (stopRecord a)) with interceptorsReset := false,
                                      oneShot := true }

/-- The inactivity timer callback (src/index.js:162): fires only while the
page is visible; either way the armed timer is consumed. -/
def inactivityFire (a : AgentState) : AgentState :=
  if a.visible then handleInactivityTimeout { a with inactivityTimeout := false }
  else { a with inactivityTimeout := false }

/-- A qualifying user-activity DOM event: the persistent activity listeners
(src/index.js:157) re-arm the inactivity timer, and the one-shot restart
listeners (src/index.js:200), when armed, perform a `startRecord` and
remove themselves. -/
def onActivity (a : AgentState) : AgentState :=
  let b := if a.activityListeners then { a with inactivityTimeout := true }
           else a
  if b.oneShot then { (startRecord b) with oneShot := false } else b

/-- The `unload` listener installed by the constructor (src/index.js:47):
detach the visibility handler, clear the inactivity timer, then a full
`stopRecord`. -/
def unloadAgent (a : AgentState) : AgentState :=
  stopRecord { a with handlerAttached := false, inactivityTimeout := false }

/-- A `visibilitychange` DOM event runs the handler only while it is
attached. -/
def dispatchVisibility (a : AgentState) : AgentState :=
  if a.handlerAttached then handleVisibilityChange a else a

/-- The handler as it runs when the page becomes visible. -/
def onShown (a : AgentState) : AgentState :=
  handleVisibilityChange { a with visible := true }

/-- The Idle lifecycle state: no recorder, no timers, no interception, no
visibility handler, no torn-down flag, and an already-flushed buffer. -/
def IdleState (a : AgentState) : Prop :=
  a.stopFn = false ∧ a.saveInterval = false ∧ a.inactivityTimeout = false
  ∧ a.visibilityTimeout = false ∧ a.handlerAttached = false
  ∧ a.hooked = false ∧ a.interceptorsReset = false ∧ a.events = []

instance (a : AgentState) : Decidable (IdleState a) := by
  unfold IdleState
  infer_instance

/-- Claim C3 (proved): `startRecord` while a recording is in progress
changes nothing and emits its warning; `stopRecord` in the Idle state
changes nothing. -/
theorem claim_c3 (a : AgentState) :
    (a.stopFn = true → startRecord a = a ∧ startRecordWarns a = true)
    ∧ (IdleState a → stopRecord a = a) := by
  constructor
  · intro h
    exact ⟨by simp [startRecord, h], h⟩
  · intro h
    obtain ⟨h1, h2, h3, h4, h5, h6, h7, h8⟩ := h
    cases a with
    | mk sf ev si sid ctr ha ir it vt hk os al vis =>
        simp only at h1 h2 h3 h4 h5 h6 h7 h8
        subst h1 h2 h3 h4 h5 h6 h7 h8
        rfl

/-- Witness for C3: a second `startRecord` on a freshly started agent is the
identity and warns; `stopRecord` on the initial (Idle) state is the
identity. -/
theorem claim_c3_witness :
    (startRecord (startRecord initialAgent) = startRecord initialAgent
      ∧ startRecordWarns (startRecord initialAgent) = true)
    ∧ stopRecord initialAgent = initialAgent :=
  ⟨(claim_c3 (startRecord initialAgent)).1 (by decide),
   (claim_c3 initialAgent).2 (by decide)⟩

/-- Claim C4 (proved): when the page becomes visible while the 15-second
teardown timer is still pending, the handler cancels the teardown timer,
restarts the recorder, the delivery interval and the inactivity timer, and
the session identifier is unchanged; when it becomes visible after the
teardown timer has fired (no timer pending, recorder stopped), the handler
mints a fresh session identifier and performs a full start: recorder,
delivery interval, interception, inactivity timer and visibility handler
all on, torn-down flag cleared. -/
theorem claim_c4 (a : AgentState) (hfresh : a.sessionID < a.uuidCtr) :
    (a.visibilityTimeout = true →
      (onShown a).sessionID = a.sessionID
      ∧ (onShown a).visibilityTimeout = false
      ∧ (onShown a).stopFn = true
      ∧ (onShown a).saveInterval = true
      ∧ (onShown a).inactivityTimeout = true)
    ∧ (a.visibilityTimeout = false → a.stopFn = false →
      (onShown a).sessionID ≠ a.sessionID
      ∧ (onShown a).stopFn = true
      ∧ (onShown a).saveInterval = true
      ∧ (onShown a).hooked = true
      ∧ (onShown a).inactivityTimeout = true
      ∧ (onShown a).handlerAttached = true
      ∧ (onShown a).interceptorsReset = false) := by
  constructor
  · intro hvt
    simp [onShown, handleVisibilityChange, hvt]
  · intro hvt hsf
    have hne : a.uuidCtr ≠ a.sessionID := Nat.ne_of_gt hfresh
    simp [onShown, handleVisibilityChange, hvt, startRecord, mintSession, hsf, hne]

/-- Witness for C4: a concrete paused-pending-teardown state keeps its
session identifier on resume, and the same state after the teardown timer
has fired gets a fresh one. -/
theorem claim_c4_witness :
    (dispatchVisibility { startRecord initialAgent with visible := false }).visibilityTimeout
        = true
    ∧ (onShown (dispatchVisibility { startRecord initialAgent with visible := false })).sessionID
        = (dispatchVisibility { startRecord initialAgent with visible := false }).sessionID
    ∧ (onShown (visibilityTimeoutFire (dispatchVisibility
          { startRecord initialAgent with visible := false }))).sessionID
        ≠ (visibilityTimeoutFire (dispatchVisibility
          { startRecord initialAgent with visible := false })).sessionID := by
  refine ⟨by decide, ?_, ?_⟩
  · exact ((claim_c4 (dispatchVisibility { startRecord initialAgent with visible := false })
      (by decide)).1 (by decide)).1
  · exact ((claim_c4 (visibilityTimeoutFire (dispatchVisibility
      { startRecord initialAgent with visible := false }))
      (by decide)).2 (by decide) (by decide)).1

/-- Claim C8 (proved): when the inactivity timer fires while the page is
visible and recording is active, the agent performs a full stop (recorder,
delivery interval and interception all off), flushes the buffer, mints a
fresh session identifier and arms the one-shot activity listeners; the
first subsequent qualifying activity event removes the one-shot listeners
and performs a full start under that new identifier. -/
theorem claim_c8 (a : AgentState) (hvis : a.visible = true)
    (_hact : a.stopFn = true) (_hit : a.inactivityTimeout = true)
    (hfresh : a.sessionID < a.uuidCtr) :
    (inactivityFire a).stopFn = false
    ∧ (inactivityFire a).saveInterval = false
    ∧ (inactivityFire a).hooked = false
    ∧ (inactivityFire a).events = []
    ∧ (inactivityFire a).sessionID ≠ a.sessionID
    ∧ (inactivityFire a).oneShot = true
    ∧ (onActivity (inactivityFire a)).oneShot = false
    ∧ (onActivity (inactivityFire a)).stopFn = true
    ∧ (onActivity (inactivityFire a)).saveInterval = true
    ∧ (onActivity (inactivityFire a)).hooked = true
    ∧ (onActivity (inactivityFire a)).sessionID = (inactivityFire a).sessionID := by
  have hne : a.uuidCtr ≠ a.sessionID := Nat.ne_of_gt hfresh
  by_cases hal : a.activityListeners = true <;>
    simp [inactivityFire, hvis, handleInactivityTimeout, stopRecord, mintSession,
      onActivity, startRecord, hne, hal]

/-- Witness for C8: the freshly started agent, after the inactivity timer
fires and one activity event, is recording again under the new session
identifier. -/
theorem claim_c8_witness :
    (inactivityFire (startRecord initialAgent)).sessionID
        ≠ (startRecord initialAgent).sessionID
    ∧ (onActivity (inactivityFire (startRecord initialAgent))).stopFn = true :=
  ⟨(claim_c8 (startRecord initialAgent) (by decide) (by decide) (by decide)
      (by decide)).2.2.2.2.1,
   (claim_c8 (startRecord initialAgent) (by decide) (by decide) (by decide)
      (by decide)).2.2.2.2.2.2.2.1⟩

/-- The spec's four lifecycle states. -/
inductive LState where
  | idle
  | active
  | pausedPendingTeardown
  | tornDown
  deriving DecidableEq, Repr

/-- The abstract lifecycle state of a concrete agent state, read off from
the spec's characterizations: the recorder runs exactly in Active, a
pending teardown timer with the recorder stopped is Paused-Pending-Teardown,
a set torn-down flag is Torn-Down, anything else is Idle. -/
def lifecycleOf (a : AgentState) : LState :=
  if a.stopFn then .active
  else if a.visibilityTimeout then .pausedPendingTeardown
  else if a.interceptorsReset then .tornDown
  else .idle

/-- The claim's invariant: interception is installed iff the state is
Active or Paused-Pending-Teardown, and the recorder and the delivery timer
run iff the state is Active. -/
def InterceptInv (a : AgentState) : Prop :=
  (a.hooked = true ↔
    (lifecycleOf a = .active ∨ lifecycleOf a = .pausedPendingTeardown))
  ∧ (a.stopFn = true ↔ lifecycleOf a = .active)
  ∧ (a.saveInterval = true ↔ lifecycleOf a = .active)

/-- The transitions named by the claim — explicit start and stop, the page
becoming hidden or visible, the teardown timer firing, the inactivity
timer firing, and page unload — exactly as the source implements them.
`startRecord` and `stopRecord` are public methods, so they can be invoked
in any state; the DOM events carry their natural enabling conditions. -/
inductive Step : AgentState → AgentState → Prop where
  | start (a : AgentState) : Step a (startRecord a)
  | stop (a : AgentState) : Step a (stopRecord a)
  | pageHidden (a : AgentState) (h : a.visible = true) :
      Step a (dispatchVisibility { a with visible := false })
  | pageShown (a : AgentState) (h : a.visible = false) :
      Step a (dispatchVisibility { a with visible := true })
  | teardown (a : AgentState) (h : a.visibilityTimeout = true) :
      Step a (visibilityTimeoutFire a)
  | inactive (a : AgentState) (h : a.inactivityTimeout = true) :
      Step a (inactivityFire a)
  | unload (a : AgentState) : Step a (unloadAgent a)

/-- States reachable from construction through the claim's transitions. -/
inductive Reach : AgentState → Prop where
  | init : Reach initialAgent
  | step {a b : AgentState} : Reach a → Step a b → Reach b

/-- The same transitions, except that an explicit `startRecord` is only
taken when it is a warning no-op (recording already in progress) or from a
fully stopped state — never while interception is still installed or while
a teardown is pending or done (Paused-Pending-Teardown or Torn-Down). -/
inductive StepR : AgentState → AgentState → Prop where
  | start (a : AgentState)
      (h : a.stopFn = true
        ∨ (a.hooked = false ∧ a.interceptorsReset = false
            ∧ a.visibilityTimeout = false)) :
      StepR a (startRecord a)
  | stop (a : AgentState) : StepR a (stopRecord a)
  | pageHidden (a : AgentState) (h : a.visible = true) :
      StepR a (dispatchVisibility { a with visible := false })
  | pageShown (a : AgentState) (h : a.visible = false) :
      StepR a (dispatchVisibility { a with visible := true })
  | teardown (a : AgentState) (h : a.visibilityTimeout = true) :
      StepR a (visibilityTimeoutFire a)
  | inactive (a : AgentState) (h : a.inactivityTimeout = true) :
      StepR a (inactivityFire a)
  | unload (a : AgentState) : StepR a (unloadAgent a)

/-- States reachable through the restricted transitions. -/
inductive ReachR : AgentState → Prop where
  | init : ReachR initialAgent
  | step {a b : AgentState} : ReachR a → StepR a b → ReachR b

/-- The inductive strengthening of the interception invariant: the delivery
interval tracks the recorder; the primitives are hooked exactly while the
recorder runs or a teardown timer is pending; an active recorder excludes a
pending teardown timer and the torn-down flag; a pending teardown timer
excludes the torn-down flag; and the visibility handler is only attached in
Active, Paused-Pending-Teardown or Torn-Down. -/
def MachineInv (a : AgentState) : Prop :=
  a.saveInterval = a.stopFn
  ∧ a.hooked = (a.stopFn || a.visibilityTimeout)
  ∧ (a.stopFn = true → a.visibilityTimeout = false)
  ∧ (a.stopFn = true → a.interceptorsReset = false)
  ∧ (a.visibilityTimeout = true → a.interceptorsReset = false)
  ∧ (a.handlerAttached = true →
      (a.stopFn = true ∨ a.visibilityTimeout = true
        ∨ a.interceptorsReset = true))

instance (a : AgentState) : Decidable (MachineInv a) := by
  unfold MachineInv
  infer_instance

instance (a : AgentState) : Decidable (InterceptInv a) := by
  unfold InterceptInv
  infer_instance

theorem machineInv_step {a b : AgentState} (ha : MachineInv a)
    (h : StepR a b) : MachineInv b := by
  obtain ⟨h1, h2, h3, h4, h5, h6⟩ := ha
  cases h with
  | start hg =>
      cases hsf : a.stopFn with
      | true =>
          simp only [startRecord, hsf, if_true]
          exact ⟨h1, h2, h3, h4, h5, h6⟩
      | false =>
          rcases hg with hg | ⟨hhk, hir, hvt⟩
          · simp [hsf] at hg
          · simp [MachineInv, startRecord, hsf, hir, hvt]
  | stop =>
      simp [MachineInv, stopRecord]
  | pageHidden hv =>
      cases hha : a.handlerAttached with
      | false => simp_all [MachineInv, dispatchVisibility]
      | true =>
          cases hir : a.interceptorsReset with
          | false =>
              have hhk : a.hooked = (a.stopFn || a.visibilityTimeout) := h2
              simp_all [MachineInv, dispatchVisibility, handleVisibilityChange]
          | true =>
              have hsf : a.stopFn = false := by
                cases hs : a.stopFn with
                | false => rfl
                | true => rw [h4 hs] at hir; exact absurd hir (by simp)
              have hvt : a.visibilityTimeout = false := by
                cases hv' : a.visibilityTimeout with
                | false => rfl
                | true => rw [h5 hv'] at hir; exact absurd hir (by simp)
              simp_all [MachineInv, dispatchVisibility, handleVisibilityChange]
  | pageShown hv =>
      cases hha : a.handlerAttached with
      | false => simp_all [MachineInv, dispatchVisibility]
      | true =>
          cases hvt : a.visibilityTimeout with
          | true =>
              have hsf : a.stopFn = false := by
                cases hs : a.stopFn with
                | false => rfl
                | true => rw [h3 hs] at hvt; exact absurd hvt (by simp)
              have hir := h5 hvt
              simp_all [MachineInv, dispatchVisibility, handleVisibilityChange]
          | false =>
              cases hsf : a.stopFn with
              | true =>
                  have hir := h4 hsf
                  simp_all [MachineInv, dispatchVisibility,
                    handleVisibilityChange, startRecord, mintSession]
              | false =>
                  have hir : a.interceptorsReset = true := by
                    rcases h6 hha with h | h | h
                    · rw [h] at hsf; exact absurd hsf (by simp)
                    · rw [h] at hvt; exact absurd hvt (by simp)
                    · exact h
                  simp_all [MachineInv, dispatchVisibility,
                    handleVisibilityChange, startRecord, mintSession]
  | teardown hvt =>
      have hsf : a.stopFn = false := by
        cases hs : a.stopFn with
        | false => rfl
        | true => rw [h3 hs] at hvt; exact absurd hvt (by simp)
      simp_all [MachineInv, visibilityTimeoutFire]
  | inactive hit =>
      cases hv : a.visible with
      | true =>
          simp [MachineInv, inactivityFire, hv, handleInactivityTimeout,
            stopRecord, mintSession]
      | false =>
          simp_all [MachineInv, inactivityFire]
  | unload =>
      simp [MachineInv, unloadAgent, stopRecord]

theorem machineInv_interceptInv (a : AgentState) (h : MachineInv a) :
    InterceptInv a := by
  obtain ⟨h1, h2, h3, h4, h5, h6⟩ := h
  cases hsf : a.stopFn <;> cases hvt : a.visibilityTimeout <;>
    cases hir : a.interceptorsReset <;>
      simp_all [InterceptInv, lifecycleOf]

theorem reachR_machineInv {a : AgentState} (h : ReachR a) : MachineInv a := by
  induction h with
  | init => decide
  | step _ hs ih => exact machineInv_step ih hs

/-- Claim C5 (as stated, refuted): `startRecord` guards only on the recorder
handle, so calling it while Paused-Pending-Teardown leaves the pending
teardown timer armed; when that timer then fires it restores the network
primitives while the recorder and delivery interval keep running — a
reachable state where recording is active but interception is not
installed.  Concretely: start, page hidden, start again, teardown timer
fires. -/
theorem claim_c5_counterexample :
    ¬ (∀ a : AgentState, Reach a → InterceptInv a) := by
  intro h
  have hr : Reach (visibilityTimeoutFire (startRecord (dispatchVisibility
      { startRecord initialAgent with visible := false }))) :=
    Reach.step
      (Reach.step
        (Reach.step (Reach.step Reach.init (Step.start initialAgent))
          (Step.pageHidden (startRecord initialAgent) (by decide)))
        (Step.start (dispatchVisibility
          { startRecord initialAgent with visible := false })))
      (Step.teardown (startRecord (dispatchVisibility
        { startRecord initialAgent with visible := false })) (by decide))
  exact absurd (h _ hr) (by decide)

/-- Claim C5 (amended, proved): in every state reachable through the claim's
transitions, provided an explicit `startRecord` is never invoked while the
state is Paused-Pending-Teardown or Torn-Down, network interception is
installed iff the state is Active or Paused-Pending-Teardown, and the
recorder and the delivery timer run iff the state is Active. -/
theorem claim_c5_amended (a : AgentState) (h : ReachR a) : InterceptInv a :=
  machineInv_interceptInv a (reachR_machineInv h)

/-- Witness for C5 (amended) on the concrete reachable state after one
explicit start. -/
theorem claim_c5_amended_witness :
    ReachR (startRecord initialAgent) ∧ InterceptInv (startRecord initialAgent) :=
  ⟨ReachR.step ReachR.init (StepR.start initialAgent (by decide)),
   claim_c5_amended (startRecord initialAgent)
     (ReachR.step ReachR.init (StepR.start initialAgent (by decide)))⟩

end Providence
